import Mathlib

/-!
Verification of pkg/skaffold/build/local/local.go (skaffold local build
orchestrator) against its natural-language specification.

The file shallowly embeds the Go source. Pure control flow is translated
directly; the mutable Builder state (the built-image registry) is passed
explicitly and returned updated; Go's (value, error) returns are modelled as
products with an Option error component, where the zero value accompanies an
error exactly as in the source. External collaborators (the per-variant build
backends, the docker client, the jib plugin resolver, the dependency
resolvers) are oracles: fields of an Externals record, universally quantified
in the theorems. Every external invocation is additionally recorded in a
trace of BCall values so that statements of the form "invokes this backend
and no other" or "never attempts the remaining artifacts" are expressible as
facts about the trace. Context and output-writer arguments of the Go
functions carry no information used by this file's logic and are dropped
(the one informational output line of Build is kept, as a list of emitted
lines); log-only statements (logrus.Warnf) are likewise dropped.
-/

namespace Skaffold

/-- Docker artifact configuration (schema latest.DockerArtifact); the fields
read by this source fragment are the dockerfile path and the build arguments. -/
structure DockerArtifactCfg where
  dockerfilePath : String
  buildArgs : List (String × Option String)
deriving DecidableEq

/-- Bazel artifact configuration (schema latest.BazelArtifact); opaque to this
source fragment. -/
structure BazelArtifactCfg where
  buildTarget : String
deriving DecidableEq

/-- Jib artifact configuration (schema latest.JibArtifact); opaque to this
source fragment. -/
structure JibArtifactCfg where
  project : String
deriving DecidableEq

/-- Custom artifact configuration (schema latest.CustomArtifact); opaque to
this source fragment. -/
structure CustomArtifactCfg where
  buildCommand : String
deriving DecidableEq

/-- Buildpack artifact configuration (schema latest.BuildpackArtifact); opaque
to this source fragment. -/
structure BuildpackArtifactCfg where
  builder : String
deriving DecidableEq

/-- The five mutually-exclusive optional backend configurations of
latest.ArtifactType. In Go each field is a possibly-nil pointer; here each is
an Option. -/
structure ArtifactType where
  dockerArtifact : Option DockerArtifactCfg
  bazelArtifact : Option BazelArtifactCfg
  jibArtifact : Option JibArtifactCfg
  customArtifact : Option CustomArtifactCfg
  buildpackArtifact : Option BuildpackArtifactCfg
deriving DecidableEq

/-- An artifact descriptor (latest.Artifact): image name, workspace path and
the embedded ArtifactType. -/
structure Artifact where
  imageName : String
  workspace : String
  type : ArtifactType
deriving DecidableEq

/-- Go error values as this fragment produces and consumes them: a plain
message (fmt.Errorf / errors.Errorf), a wrapped cause with a context string
(errors.Wrap), or the distinguished sentinel build.ErrSyncMapNotSupported,
which is its own kind, distinguishable without string matching. -/
inductive GoErr where
  | msg (s : String)
  | wrap (context : String) (cause : GoErr)
  | syncMapNotSupported
deriving DecidableEq

/-- Result of docker image inspection (types.ImageInspect); the only field
read here is the image ID. -/
structure ImageInspect where
  id : String
deriving DecidableEq

/-- A Build Result (build.Artifact): the artifact's image name paired with its
final image reference. -/
structure BuildResult where
  imageName : String
  tag : String
deriving DecidableEq

/-- The Builder's session state: configuration flags (push mode, local
cluster, kube context, insecure registries) and the append-only Built-Image
Registry (builtImages). -/
structure Builder where
  pushImages : Bool
  localCluster : Bool
  kubeContext : String
  insecureRegistries : List String
  builtImages : List String
deriving DecidableEq

/-- Jib plugin flavor as returned by jib.DeterminePluginType. The Go type is a
string; the two known constants are maven and gradle, and the constructor
other stands for any further value, which the source's default branch
rejects. -/
inductive PluginType where
  | maven
  | gradle
  | other
deriving DecidableEq

/-- A record of one invocation of an external collaborator, with the arguments
the source passes to it. -/
inductive BCall where
  | docker (a : Artifact) (tag : String)
  | bazel (a : Artifact) (tag : String)
  | jibMaven (workspace : String) (cfg : Option JibArtifactCfg) (tag : String)
  | jibGradle (workspace : String) (cfg : Option JibArtifactCfg) (tag : String)
  | custom (a : Artifact) (tag : String)
  | buildpack (a : Artifact) (tag : String)
  | determinePlugin (workspace : String) (cfg : Option JibArtifactCfg)
  | inspect (tag : String)
  | tagImage (tag : String) (imageID : String)
deriving DecidableEq

/-- The external collaborators of this fragment, as oracles. Each returns a Go
style (value, error) pair. The build backends (buildDocker, buildBazel,
buildJibMaven, buildJibGradle, buildCustom, buildBuildpack) live in sibling
files of the same package; the docker client operations
(imageInspectWithRaw, tagWithImageID, dockerSyncMap), the jib plugin
resolver (determinePluginType) and the per-variant dependency resolvers live
in other packages. -/
structure Externals where
  buildDocker : Artifact → String → String × Option GoErr
  buildBazel : Artifact → String → String × Option GoErr
  buildJibMaven : String → Option JibArtifactCfg → String → String × Option GoErr
  buildJibGradle : String → Option JibArtifactCfg → String → String × Option GoErr
  buildCustom : Artifact → String → String × Option GoErr
  buildBuildpack : Artifact → String → String × Option GoErr
  determinePluginType : String → Option JibArtifactCfg → PluginType × Option GoErr
  imageInspectWithRaw : String → ImageInspect × Option GoErr
  tagWithImageID : String → String → String × Option GoErr
  dockerGetDependencies : String → String → List (String × Option String) → List String → List String × Option GoErr
  bazelGetDependencies : String → Option BazelArtifactCfg → List String × Option GoErr
  jibGetDependencies : String → Option JibArtifactCfg → List String × Option GoErr
  customGetDependencies : String → Option CustomArtifactCfg → List String → List String × Option GoErr
  buildpackGetDependencies : String → Option BuildpackArtifactCfg → List String × Option GoErr
  dockerSyncMap : String → String → List (String × Option String) → List String → Option (List (String × List String)) × Option GoErr

/-- Abstraction of Go's percent-plus-v rendering of an ArtifactType value in
the "undefined artifact type" message: it lists, for each of the five variant
fields, whether the field is populated. The exact Go output prints pointer
addresses and is not reproducible; the claims only require that the message
names the artifact's type. -/
def artifactTypeStr (t : ArtifactType) : String :=
  "\x7bDockerArtifact:" ++ (if t.dockerArtifact.isSome then "set" else "<nil>") ++
  " BazelArtifact:" ++ (if t.bazelArtifact.isSome then "set" else "<nil>") ++
  " JibArtifact:" ++ (if t.jibArtifact.isSome then "set" else "<nil>") ++
  " CustomArtifact:" ++ (if t.customArtifact.isSome then "set" else "<nil>") ++
  " BuildpackArtifact:" ++ (if t.buildpackArtifact.isSome then "set" else "<nil>") ++ "\x7d"

/-- Embedding of getImageIDForTag (local.go, lines 149 to 155): inspect the
tag against the local daemon; on error return the zero string and the error
wrapped as "inspecting image", otherwise the inspected image ID. The raw
bytes returned by ImageInspectWithRaw are discarded by the source and are not
modelled. -/
def getImageIDForTag (ext : Externals) (tag : String) : String × Option GoErr :=
  match ext.imageInspectWithRaw tag with
  | (_, some err) => ("", some (GoErr.wrap "inspecting image" err))
  | (insp, none) => (insp.id, none)

/-- Embedding of buildJib (local.go, lines 100 to 114): resolve the workspace
plugin flavor; propagate a resolver error unchanged; dispatch maven and
gradle flavors to the corresponding flavor-specific build with the same
workspace, configuration and tag; reject any other flavor with an error
naming the workspace. -/
def buildJib (ext : Externals) (a : Artifact) (tag : String) :
    (String × Option GoErr) × List BCall :=
  match ext.determinePluginType a.workspace a.type.jibArtifact with
  | (_, some err) =>
    (("", some err), [BCall.determinePlugin a.workspace a.type.jibArtifact])
  | (PluginType.maven, none) =>
    (ext.buildJibMaven a.workspace a.type.jibArtifact tag,
     [BCall.determinePlugin a.workspace a.type.jibArtifact,
      BCall.jibMaven a.workspace a.type.jibArtifact tag])
  | (PluginType.gradle, none) =>
    (ext.buildJibGradle a.workspace a.type.jibArtifact tag,
     [BCall.determinePlugin a.workspace a.type.jibArtifact,
      BCall.jibGradle a.workspace a.type.jibArtifact tag])
  | (PluginType.other, none) =>
    (("", some (GoErr.msg ("Unable to determine Jib builder type for " ++ a.workspace))),
     [BCall.determinePlugin a.workspace a.type.jibArtifact])

/-- Embedding of runBuildForArtifact (local.go, lines 78 to 98): a Go switch
whose cases test the five variant pointers in source order and dispatch to the
first populated variant's backend; when none is populated it fails with the
"undefined artifact type" error rendering the artifact's type. -/
def runBuildForArtifact (ext : Externals) (a : Artifact) (tag : String) :
    (String × Option GoErr) × List BCall :=
  if a.type.dockerArtifact.isSome then
    (ext.buildDocker a tag, [BCall.docker a tag])
  else if a.type.bazelArtifact.isSome then
    (ext.buildBazel a tag, [BCall.bazel a tag])
  else if a.type.jibArtifact.isSome then
    buildJib ext a tag
  else if a.type.customArtifact.isSome then
    (ext.buildCustom a tag, [BCall.custom a tag])
  else if a.type.buildpackArtifact.isSome then
    (ext.buildBuildpack a tag, [BCall.buildpack a tag])
  else
    (("", some (GoErr.msg ("undefined artifact type: " ++ artifactTypeStr a.type))), [])

/-- Embedding of buildArtifact (local.go, lines 51 to 76): run the dispatched
backend; on failure return the zero string and the error wrapped as "build
artifact", leaving the Builder untouched. On success, in push mode the raw
result is a digest: for a docker artifact first inspect the tag, appending the
recovered image ID to the Built-Image Registry only when it is non-empty (an
inspection error is only logged), then return tag at digest; in non-push mode
the raw result is a local image ID, appended unconditionally to the registry,
and the result of re-tagging it with the requested tag is returned. -/
def buildArtifact (ext : Externals) (b : Builder) (a : Artifact) (tag : String) :
    (String × Option GoErr) × Builder × List BCall :=
  match runBuildForArtifact ext a tag with
  | ((_, some err), calls) =>
    (("", some (GoErr.wrap "build artifact" err)), b, calls)
  | ((digestOrImageID, none), calls) =>
    if b.pushImages then
      match a.type.dockerArtifact with
      | some _ =>
        let imageID := (getImageIDForTag ext tag).1
        let b1 : Builder :=
          if imageID ≠ "" then { b with builtImages := b.builtImages ++ [imageID] } else b
        ((tag ++ "@" ++ digestOrImageID, none), b1, calls ++ [BCall.inspect tag])
      | none =>
        ((tag ++ "@" ++ digestOrImageID, none), b, calls)
    else
      let b1 : Builder := { b with builtImages := b.builtImages ++ [digestOrImageID] }
      (ext.tagWithImageID tag digestOrImageID, b1,
       calls ++ [BCall.tagImage tag digestOrImageID])

/-- Modelled from the spec: build.InSequence is not part of this source
fragment; only its caller Build is. Per the spec (sections 4.1, 5 and 8) it
builds the artifacts strictly in the given order, one at a time, looking up
each artifact's tag by image name, collecting one Build Result (image name
and final reference) per completed artifact in input order; on the first
failure it stops without attempting the remaining artifacts and returns the
results gathered so far together with the failing call's error. -/
def inSequence (ext : Externals) (tags : String → String) :
    Builder → List Artifact → (List BuildResult × Option GoErr) × Builder × List BCall
  | b, [] => (([], none), b, [])
  | b, a :: rest =>
    match buildArtifact ext b a (tags a.imageName) with
    | ((finalTag, none), b1, calls) =>
      match inSequence ext tags b1 rest with
      | ((results, err), b2, calls2) =>
        ((⟨a.imageName, finalTag⟩ :: results, err), b2, calls ++ calls2)
    | ((_, some err), b1, calls) => (([], some err), b1, calls)

/-- Embedding of Build (local.go, lines 41 to 49): when the session targets a
local cluster, emit one informational line naming the kube context, then
build the artifacts in sequence. The emitted lines are returned as the last
component. The deferred close of the docker client is resource management
with no effect on any modelled observable and is not modelled. -/
def Build (ext : Externals) (b : Builder) (tags : String → String) (artifacts : List Artifact) :
    (List BuildResult × Option GoErr) × Builder × List BCall × List String :=
  let out : List String :=
    if b.localCluster then
      ["Found [" ++ b.kubeContext ++ "] context, using local docker daemon.\n"]
    else []
  match inSequence ext tags b artifacts with
  | (res, b1, calls) => (res, b1, calls, out)

/-- Modelled from the spec: util.AbsolutePaths is not part of this source
fragment. Per the spec (section 4.4), dependency resolution yields
workspace-relative paths and this helper "converts every path to an absolute
path rooted at the artifact's workspace"; it is modelled as joining the
workspace onto each relative path with a path separator. -/
def absolutePaths (workspace : String) (paths : List String) : List String :=
  paths.map (fun p => workspace ++ "/" ++ p)

/-- Embedding of DependenciesForArtifact (local.go, lines 116 to 147): a Go
switch testing the five variant pointers in source order; the first populated
variant's dependency resolver is invoked with the arguments the source passes
it; no populated variant yields the "undefined artifact type" error (returned
directly, bypassing path conversion). A resolver error is propagated
unwrapped with a nil path list; on success every returned relative path is
converted via absolutePaths. -/
def DependenciesForArtifact (ext : Externals) (b : Builder) (a : Artifact) :
    List String × Option GoErr :=
  let pathsErr : List String × Option GoErr :=
    match a.type.dockerArtifact with
    | some cfg =>
      ext.dockerGetDependencies a.workspace cfg.dockerfilePath cfg.buildArgs b.insecureRegistries
    | none =>
      if a.type.bazelArtifact.isSome then
        ext.bazelGetDependencies a.workspace a.type.bazelArtifact
      else if a.type.jibArtifact.isSome then
        ext.jibGetDependencies a.workspace a.type.jibArtifact
      else if a.type.customArtifact.isSome then
        ext.customGetDependencies a.workspace a.type.customArtifact b.insecureRegistries
      else if a.type.buildpackArtifact.isSome then
        ext.buildpackGetDependencies a.workspace a.type.buildpackArtifact
      else
        ([], some (GoErr.msg ("undefined artifact type: " ++ artifactTypeStr a.type)))
  match pathsErr with
  | (_, some err) => ([], some err)
  | (paths, none) => (absolutePaths a.workspace paths, none)

/-- Embedding of SyncMap (local.go, lines 157 to 163): defined only for the
docker variant; any other artifact fails with the distinguished sentinel
build.ErrSyncMapNotSupported; a docker artifact delegates to the docker sync
map computation, whose result is returned unmodified. -/
def SyncMap (ext : Externals) (b : Builder) (a : Artifact) :
    Option (List (String × List String)) × Option GoErr :=
  match a.type.dockerArtifact with
  | none => (none, some GoErr.syncMapNotSupported)
  | some cfg =>
    ext.dockerSyncMap a.workspace cfg.dockerfilePath cfg.buildArgs b.insecureRegistries

/-- Specification predicate: a path is absolute when it starts with the path
separator. -/
def isAbsolutePath (p : String) : Prop := ("/").data <+: p.data

/-- Specification predicate: a path lies under a workspace when it extends the
workspace by a path separator. -/
def liesUnder (workspace p : String) : Prop := (workspace ++ "/").data <+: p.data

/-- Classifier for trace entries belonging to the jib backend family: the
plugin resolver probe and the two flavor-specific build calls. -/
def BCall.isJibFamily : BCall → Bool
  | .jibMaven _ _ _ => true
  | .jibGradle _ _ _ => true
  | .determinePlugin _ _ => true
  | _ => false

/-- Concrete oracle assignment in which every collaborator succeeds; used by
the concrete evaluations below. -/
def exampleExt : Externals where
  buildDocker := fun _ _ => ("docker-id", none)
  buildBazel := fun _ _ => ("bazel-id", none)
  buildJibMaven := fun _ _ _ => ("maven-id", none)
  buildJibGradle := fun _ _ _ => ("gradle-id", none)
  buildCustom := fun _ _ => ("custom-id", none)
  buildBuildpack := fun _ _ => ("buildpack-id", none)
  determinePluginType := fun _ _ => (PluginType.maven, none)
  imageInspectWithRaw := fun _ => (⟨"sha256:xyz"⟩, none)
  tagWithImageID := fun tag _ => (tag, none)
  dockerGetDependencies := fun _ _ _ _ => (["Dockerfile", "main.go"], none)
  bazelGetDependencies := fun _ _ => (["BUILD"], none)
  jibGetDependencies := fun _ _ => (["pom.xml"], none)
  customGetDependencies := fun _ _ _ => (["build.sh"], none)
  buildpackGetDependencies := fun _ _ => (["project.toml"], none)
  dockerSyncMap := fun _ _ _ _ => (some [("/app", ["main.go"])], none)

/-- Oracle assignment in which the docker backend's build fails. -/
def failDockerExt : Externals :=
  { exampleExt with buildDocker := fun _ _ => ("", some (GoErr.msg "boom")) }

/-- Oracle assignment in which the docker backend reports success with an
empty raw result string. -/
def emptyBuildExt : Externals :=
  { exampleExt with buildDocker := fun _ _ => ("", none) }

/-- Oracle assignment in which post-build image inspection fails. -/
def failInspectExt : Externals :=
  { exampleExt with imageInspectWithRaw := fun _ => (⟨""⟩, some (GoErr.msg "no such image")) }

/-- Oracle assignment in which post-build image inspection succeeds but
reports an empty image ID. -/
def emptyInspectExt : Externals :=
  { exampleExt with imageInspectWithRaw := fun _ => (⟨""⟩, none) }

/-- Oracle assignment in which the jib plugin resolver reports an unknown
flavor. -/
def otherPluginExt : Externals :=
  { exampleExt with determinePluginType := fun _ _ => (PluginType.other, none) }

/-- Artifact with only the docker variant populated. -/
def aDocker : Artifact := ⟨"app", "/ws/app", ⟨some ⟨"Dockerfile", []⟩, none, none, none, none⟩⟩

/-- Artifact with only the bazel variant populated. -/
def aBazel : Artifact := ⟨"bz", "/ws/bz", ⟨none, some ⟨"//target"⟩, none, none, none⟩⟩

/-- Artifact with only the jib variant populated. -/
def aJib : Artifact := ⟨"jb", "/ws/jb", ⟨none, none, some ⟨"proj"⟩, none, none⟩⟩

/-- Artifact with only the custom variant populated. -/
def aCustom : Artifact := ⟨"cu", "/ws/cu", ⟨none, none, none, some ⟨"build.sh"⟩, none⟩⟩

/-- Artifact with no variant populated: the invalid state the defensive
default branch guards against. -/
def aNone : Artifact := ⟨"zero", "/ws/zero", ⟨none, none, none, none, none⟩⟩

/-- Artifact with two variants populated (docker and bazel): the other
invalid state. -/
def aDockerBazel : Artifact :=
  ⟨"both", "/ws/both", ⟨some ⟨"Dockerfile", []⟩, some ⟨"//target"⟩, none, none, none⟩⟩

/-- Session in push mode with an empty Built-Image Registry. -/
def pushBuilder : Builder := ⟨true, false, "ctx", [], []⟩

/-- Session in non-push mode with an empty Built-Image Registry. -/
def localBuilder : Builder := ⟨false, false, "ctx", [], []⟩

/-- Concrete tag assignment used by the concrete evaluations below. -/
def tagsFn : String → String := fun n => n ++ ":v1"

/-- Helper: when the dispatched backend fails, buildArtifact returns the zero
string with the error wrapped as "build artifact", an untouched Builder, and
exactly the dispatcher's trace. -/
theorem buildArtifact_of_backend_error (ext : Externals) (b : Builder) (a : Artifact)
    (tag : String) (e : GoErr)
    (h : (runBuildForArtifact ext a tag).1.2 = some e) :
    buildArtifact ext b a tag =
      (("", some (GoErr.wrap "build artifact" e)), b, (runBuildForArtifact ext a tag).2) := by
  rcases hrb : runBuildForArtifact ext a tag with ⟨⟨v, e2⟩, calls⟩
  rw [hrb] at h
  simp only [] at h
  subst h
  unfold buildArtifact
  rw [hrb]

/-- C3: for every artifact and tag T, if push mode is on and the dispatched
backend build succeeds with raw result D, then buildArtifact succeeds and the
final reference equals T followed by an at sign followed by D. -/
theorem buildArtifact_push_final_reference (ext : Externals) (b : Builder) (a : Artifact)
    (tag D : String) (hpush : b.pushImages = true)
    (hrun : (runBuildForArtifact ext a tag).1 = (D, none)) :
    (buildArtifact ext b a tag).1 = (tag ++ "@" ++ D, none) := by
  rcases hrb : runBuildForArtifact ext a tag with ⟨⟨v, e⟩, calls⟩
  rw [hrb] at hrun
  simp only [Prod.mk.injEq] at hrun
  obtain ⟨hv, he⟩ := hrun
  subst hv; subst he
  unfold buildArtifact
  rw [hrb]
  simp only [hpush, if_true]
  cases hd : a.type.dockerArtifact <;> simp

/-- Witness for C3 at a concrete input: push mode, docker artifact, backend
digest docker-id, tag gcr.io/p/app:v1. -/
theorem buildArtifact_push_final_reference_witness :
    (buildArtifact exampleExt pushBuilder aDocker "gcr.io/p/app:v1").1 =
      ("gcr.io/p/app:v1@docker-id", none) :=
  buildArtifact_push_final_reference exampleExt pushBuilder aDocker "gcr.io/p/app:v1"
    "docker-id" rfl rfl

/-- C4: for every artifact and tag T, if push mode is off and the dispatched
backend build succeeds with local image ID I, then exactly one copy of I is
appended to the Built-Image Registry and the final reference is exactly what
the build client's tag-by-identifier operation returns for re-tagging I as
T. -/
theorem buildArtifact_nonpush_tracks_and_retags (ext : Externals) (b : Builder) (a : Artifact)
    (tag I : String) (hpush : b.pushImages = false)
    (hrun : (runBuildForArtifact ext a tag).1 = (I, none)) :
    (buildArtifact ext b a tag).1 = ext.tagWithImageID tag I ∧
    (buildArtifact ext b a tag).2.1.builtImages = b.builtImages ++ [I] := by
  rcases hrb : runBuildForArtifact ext a tag with ⟨⟨v, e⟩, calls⟩
  rw [hrb] at hrun
  simp only [Prod.mk.injEq] at hrun
  obtain ⟨hv, he⟩ := hrun
  subst hv; subst he
  unfold buildArtifact
  rw [hrb]
  simp [hpush]

/-- Witness for C4 at a concrete input: non-push mode, docker artifact,
backend image ID docker-id; the registry gains docker-id once and the final
reference is the re-tag result. -/
theorem buildArtifact_nonpush_tracks_and_retags_witness :
    (buildArtifact exampleExt localBuilder aDocker "t").1 = ("t", none) ∧
    (buildArtifact exampleExt localBuilder aDocker "t").2.1.builtImages = ["docker-id"] := by
  have h := buildArtifact_nonpush_tracks_and_retags exampleExt localBuilder aDocker
    "t" "docker-id" rfl rfl
  exact ⟨h.1, h.2⟩

/-- C5: for every docker artifact in push mode whose backend build succeeds
with digest D, if the post-build inspection of the tag fails, the build still
succeeds with final reference tag at digest, and the Builder (in particular
the Built-Image Registry) is left unchanged by the inspection step. -/
theorem buildArtifact_push_inspection_failure_nonfatal (ext : Externals) (b : Builder)
    (a : Artifact) (tag D : String) (cfg : DockerArtifactCfg) (e : GoErr)
    (hpush : b.pushImages = true)
    (hdocker : a.type.dockerArtifact = some cfg)
    (hrun : (runBuildForArtifact ext a tag).1 = (D, none))
    (hinsp : (ext.imageInspectWithRaw tag).2 = some e) :
    (buildArtifact ext b a tag).1 = (tag ++ "@" ++ D, none) ∧
    (buildArtifact ext b a tag).2.1 = b := by
  rcases hrb : runBuildForArtifact ext a tag with ⟨⟨v, e2⟩, calls⟩
  rw [hrb] at hrun
  simp only [Prod.mk.injEq] at hrun
  obtain ⟨hv, he⟩ := hrun
  subst hv; subst he
  have hid : (getImageIDForTag ext tag).1 = "" := by
    unfold getImageIDForTag
    rcases hi : ext.imageInspectWithRaw tag with ⟨insp, ei⟩
    rw [hi] at hinsp
    simp only [] at hinsp
    subst hinsp
    rfl
  unfold buildArtifact
  rw [hrb]
  simp [hpush, hdocker, hid]

/-- Witness for C5 at a concrete input: push mode, docker artifact, backend
digest docker-id, inspection failing; the build succeeds and the session
state is untouched. -/
theorem buildArtifact_push_inspection_failure_nonfatal_witness :
    (buildArtifact failInspectExt pushBuilder aDocker "t").1 = ("t@docker-id", none) ∧
    (buildArtifact failInspectExt pushBuilder aDocker "t").2.1 = pushBuilder := by
  have h := buildArtifact_push_inspection_failure_nonfatal failInspectExt pushBuilder aDocker
    "t" "docker-id" ⟨"Dockerfile", []⟩ (GoErr.msg "no such image") rfl rfl rfl rfl
  exact ⟨h.1, h.2⟩

/-- C9: for every artifact and tag, when the dispatched backend build fails
with error e, buildArtifact returns the empty string as reference together
with e wrapped as "build artifact", and the Built-Image Registry is exactly
as it was before the call. -/
theorem buildArtifact_backend_failure_clean (ext : Externals) (b : Builder) (a : Artifact)
    (tag : String) (e : GoErr)
    (h : (runBuildForArtifact ext a tag).1.2 = some e) :
    (buildArtifact ext b a tag).1 = ("", some (GoErr.wrap "build artifact" e)) ∧
    (buildArtifact ext b a tag).2.1.builtImages = b.builtImages := by
  rw [buildArtifact_of_backend_error ext b a tag e h]
  exact ⟨rfl, rfl⟩

/-- Witness for C9 at a concrete input: a failing docker backend in non-push
mode; the reference is the empty string, the error is the wrapped backend
error, and the registry stays empty. -/
theorem buildArtifact_backend_failure_clean_witness :
    (buildArtifact failDockerExt localBuilder aDocker "t").1 =
      ("", some (GoErr.wrap "build artifact" (GoErr.msg "boom"))) ∧
    (buildArtifact failDockerExt localBuilder aDocker "t").2.1.builtImages = [] := by
  have h := buildArtifact_backend_failure_clean failDockerExt localBuilder aDocker
    "t" (GoErr.msg "boom") rfl
  exact ⟨h.1, h.2⟩

/-- C1 (amended): the Backend Dispatcher resolves the variant by testing the
five configurations in the fixed source order docker, bazel, jib, custom,
buildpack, and invokes the first populated variant's backend and no other; in
particular, for an artifact with exactly one populated variant it invokes
that variant's backend and no other. Only when no variant at all is populated
does it invoke no backend and fail with the "undefined artifact type" error
rendering the artifact's type. -/
theorem runBuildForArtifact_dispatch (ext : Externals) (a : Artifact) (tag : String) :
    (a.type.dockerArtifact.isSome = true →
      runBuildForArtifact ext a tag = (ext.buildDocker a tag, [BCall.docker a tag])) ∧
    (a.type.dockerArtifact = none → a.type.bazelArtifact.isSome = true →
      runBuildForArtifact ext a tag = (ext.buildBazel a tag, [BCall.bazel a tag])) ∧
    (a.type.dockerArtifact = none → a.type.bazelArtifact = none →
      a.type.jibArtifact.isSome = true →
      runBuildForArtifact ext a tag = buildJib ext a tag ∧
      ∀ c ∈ (buildJib ext a tag).2, c.isJibFamily = true) ∧
    (a.type.dockerArtifact = none → a.type.bazelArtifact = none →
      a.type.jibArtifact = none → a.type.customArtifact.isSome = true →
      runBuildForArtifact ext a tag = (ext.buildCustom a tag, [BCall.custom a tag])) ∧
    (a.type.dockerArtifact = none → a.type.bazelArtifact = none →
      a.type.jibArtifact = none → a.type.customArtifact = none →
      a.type.buildpackArtifact.isSome = true →
      runBuildForArtifact ext a tag = (ext.buildBuildpack a tag, [BCall.buildpack a tag])) ∧
    (a.type.dockerArtifact = none → a.type.bazelArtifact = none →
      a.type.jibArtifact = none → a.type.customArtifact = none →
      a.type.buildpackArtifact = none →
      runBuildForArtifact ext a tag =
        (("", some (GoErr.msg ("undefined artifact type: " ++ artifactTypeStr a.type))), [])) := by
  refine ⟨?_, ?_, ?_, ?_, ?_, ?_⟩
  · intro h1
    simp [runBuildForArtifact, h1]
  · intro h1 h2
    simp [runBuildForArtifact, h1, h2]
  · intro h1 h2 h3
    constructor
    · simp [runBuildForArtifact, h1, h2, h3]
    · unfold buildJib
      rcases hdp : ext.determinePluginType a.workspace a.type.jibArtifact with ⟨t, e⟩
      cases e <;> cases t <;> simp [BCall.isJibFamily]
  · intro h1 h2 h3 h4
    simp [runBuildForArtifact, h1, h2, h3, h4]
  · intro h1 h2 h3 h4 h5
    simp [runBuildForArtifact, h1, h2, h3, h4, h5]
  · intro h1 h2 h3 h4 h5
    simp [runBuildForArtifact, h1, h2, h3, h4, h5]

/-- Counterexample to C1 as stated: an artifact with two variants populated
(docker and bazel) does not fail with the "undefined artifact type" error; it
is dispatched to the docker backend, which is invoked and succeeds. -/
theorem runBuildForArtifact_multi_variant_cex :
    (runBuildForArtifact exampleExt aDockerBazel "t").1.2 = none ∧
    (runBuildForArtifact exampleExt aDockerBazel "t").2 = [BCall.docker aDockerBazel "t"] :=
  ⟨rfl, rfl⟩

/-- Witness for C1 (amended) at concrete inputs: a bazel-only artifact is
dispatched to the bazel backend alone, and an artifact with no populated
variant yields the "undefined artifact type" error and no backend call. -/
theorem runBuildForArtifact_dispatch_witness :
    runBuildForArtifact exampleExt aBazel "t" = (("bazel-id", none), [BCall.bazel aBazel "t"]) ∧
    runBuildForArtifact exampleExt aNone "t" =
      (("", some (GoErr.msg ("undefined artifact type: " ++ artifactTypeStr aNone.type))), []) := by
  constructor
  · have h := (runBuildForArtifact_dispatch exampleExt aBazel "t").2.1 rfl rfl
    exact h
  · exact (runBuildForArtifact_dispatch exampleExt aNone "t").2.2.2.2.2 rfl rfl rfl rfl rfl

/-- C8: for every jib artifact, the build first resolves the workspace's
plugin flavor; a maven or gradle classification dispatches to the matching
flavor-specific build call with the same workspace, configuration and tag;
any other classification invokes no build and fails with a descriptive error
naming the workspace; a resolver failure likewise invokes no build and
propagates the resolver's own error. -/
theorem buildJib_flavor_routing (ext : Externals) (a : Artifact) (tag : String) :
    (ext.determinePluginType a.workspace a.type.jibArtifact = (PluginType.maven, none) →
      buildJib ext a tag =
        (ext.buildJibMaven a.workspace a.type.jibArtifact tag,
         [BCall.determinePlugin a.workspace a.type.jibArtifact,
          BCall.jibMaven a.workspace a.type.jibArtifact tag])) ∧
    (ext.determinePluginType a.workspace a.type.jibArtifact = (PluginType.gradle, none) →
      buildJib ext a tag =
        (ext.buildJibGradle a.workspace a.type.jibArtifact tag,
         [BCall.determinePlugin a.workspace a.type.jibArtifact,
          BCall.jibGradle a.workspace a.type.jibArtifact tag])) ∧
    (ext.determinePluginType a.workspace a.type.jibArtifact = (PluginType.other, none) →
      buildJib ext a tag =
        (("", some (GoErr.msg ("Unable to determine Jib builder type for " ++ a.workspace))),
         [BCall.determinePlugin a.workspace a.type.jibArtifact])) ∧
    (∀ t e, ext.determinePluginType a.workspace a.type.jibArtifact = (t, some e) →
      buildJib ext a tag =
        (("", some e), [BCall.determinePlugin a.workspace a.type.jibArtifact])) := by
  refine ⟨?_, ?_, ?_, ?_⟩
  · intro h; unfold buildJib; rw [h]
  · intro h; unfold buildJib; rw [h]
  · intro h; unfold buildJib; rw [h]
  · intro t e h; unfold buildJib; rw [h]; cases t <;> rfl

/-- Witness for C8 at concrete inputs: a maven workspace dispatches to the
maven-specific build; an unclassifiable workspace fails with the error naming
the workspace, calling no build. -/
theorem buildJib_flavor_routing_witness :
    buildJib exampleExt aJib "t" =
      (("maven-id", none),
       [BCall.determinePlugin "/ws/jb" (some ⟨"proj"⟩),
        BCall.jibMaven "/ws/jb" (some ⟨"proj"⟩) "t"]) ∧
    buildJib otherPluginExt aJib "t" =
      (("", some (GoErr.msg ("Unable to determine Jib builder type for " ++ "/ws/jb"))),
       [BCall.determinePlugin "/ws/jb" (some ⟨"proj"⟩)]) := by
  constructor
  · exact (buildJib_flavor_routing exampleExt aJib "t").1 rfl
  · exact (buildJib_flavor_routing otherPluginExt aJib "t").2.2.1 rfl

/-- C6: SyncMap on any artifact whose docker configuration is not populated
fails with exactly the distinguished ErrSyncMapNotSupported kind and no
other; on a docker artifact it returns the docker sync-map computation's
result unmodified. -/
theorem syncMap_docker_only (ext : Externals) (b : Builder) (a : Artifact) :
    (a.type.dockerArtifact = none →
      SyncMap ext b a = (none, some GoErr.syncMapNotSupported)) ∧
    (∀ cfg, a.type.dockerArtifact = some cfg →
      SyncMap ext b a =
        ext.dockerSyncMap a.workspace cfg.dockerfilePath cfg.buildArgs b.insecureRegistries) := by
  constructor
  · intro h; unfold SyncMap; rw [h]
  · intro cfg h; unfold SyncMap; rw [h]

/-- Witness for C6 at concrete inputs: a bazel artifact gets exactly the
sentinel unsupported error; a docker artifact gets the backend's mapping
unmodified. -/
theorem syncMap_docker_only_witness :
    SyncMap exampleExt pushBuilder aBazel = (none, some GoErr.syncMapNotSupported) ∧
    SyncMap exampleExt pushBuilder aDocker = (some [("/app", ["main.go"])], none) := by
  constructor
  · exact (syncMap_docker_only exampleExt pushBuilder aBazel).1 rfl
  · exact (syncMap_docker_only exampleExt pushBuilder aDocker).2 ⟨"Dockerfile", []⟩ rfl

/-- C10 (amended): in push mode an identifier recovered by post-build
inspection of a docker artifact is appended to the Built-Image Registry only
if it is non-empty — in particular, when inspection succeeds but reports an
empty identifier, nothing is appended — so every push-mode buildArtifact call
preserves the invariant that the registry never contains the empty string.
The non-push path, by contrast, appends the backend's raw result
unconditionally, even when it is the empty string. -/
theorem buildArtifact_push_no_empty_tracking (ext : Externals) (b : Builder) (a : Artifact)
    (tag : String) (hpush : b.pushImages = true) :
    (("" ∉ b.builtImages) → "" ∉ (buildArtifact ext b a tag).2.1.builtImages) ∧
    (∀ cfg D, a.type.dockerArtifact = some cfg →
      (runBuildForArtifact ext a tag).1 = (D, none) →
      ext.imageInspectWithRaw tag = (⟨""⟩, none) →
      (buildArtifact ext b a tag).2.1.builtImages = b.builtImages) := by
  constructor
  · intro hmem
    rcases hrb : runBuildForArtifact ext a tag with ⟨⟨v, e⟩, calls⟩
    cases e with
    | some err =>
      unfold buildArtifact
      rw [hrb]
      exact hmem
    | none =>
      unfold buildArtifact
      rw [hrb]
      simp only [hpush, if_true]
      cases hd : a.type.dockerArtifact with
      | none => exact hmem
      | some cfg =>
        by_cases hid : (getImageIDForTag ext tag).1 = ""
        · simp [hid]
          exact hmem
        · simp [hid]
          exact ⟨hmem, fun hc => hid hc.symm⟩
  · intro cfg D hdocker hrun hinsp
    rcases hrb : runBuildForArtifact ext a tag with ⟨⟨v, e⟩, calls⟩
    rw [hrb] at hrun
    simp only [Prod.mk.injEq] at hrun
    obtain ⟨hv, he⟩ := hrun
    subst hv; subst he
    have hid : (getImageIDForTag ext tag).1 = "" := by
      unfold getImageIDForTag
      rw [hinsp]
    unfold buildArtifact
    rw [hrb]
    simp [hpush, hdocker, hid]

/-- Counterexample to C10 as stated: in non-push mode a docker backend that
reports success with an empty raw result makes buildArtifact append the empty
string to the Built-Image Registry, so not every operation preserves the
claimed invariant that the registry never contains the empty string. -/
theorem builtImages_empty_string_cex :
    localBuilder.builtImages = [] ∧
    (buildArtifact emptyBuildExt localBuilder aDocker "t").2.1.builtImages = [""] :=
  ⟨rfl, rfl⟩

/-- Witness for C10 (amended) at a concrete input: push mode, docker
artifact, inspection succeeding with an empty identifier; the registry keeps
no empty string and is left unchanged. -/
theorem buildArtifact_push_no_empty_tracking_witness :
    "" ∉ (buildArtifact emptyInspectExt pushBuilder aDocker "t").2.1.builtImages ∧
    (buildArtifact emptyInspectExt pushBuilder aDocker "t").2.1.builtImages =
      pushBuilder.builtImages := by
  have h := buildArtifact_push_no_empty_tracking emptyInspectExt pushBuilder aDocker "t" rfl
  exact ⟨h.1 (by simp [pushBuilder]), h.2 ⟨"Dockerfile", []⟩ "docker-id" rfl rfl rfl⟩

/-- Helper: the post-switch conversion step of DependenciesForArtifact can
only succeed with a converted path list. -/
theorem depsConvert_shape (ws : String) (r : List String × Option GoErr) (paths : List String)
    (h : (match r with
          | (_, some err) => (([] : List String), some err)
          | (ps, none) => (absolutePaths ws ps, none)) = (paths, none)) :
    ∃ raw, paths = absolutePaths ws raw := by
  rcases r with ⟨ps, e⟩
  cases e with
  | none =>
    simp only [Prod.mk.injEq] at h
    exact ⟨ps, h.1.symm⟩
  | some err => simp at h

/-- Helper: a successful dependency resolution always returns a path list of
the form absolutePaths workspace raw for some raw list: every branch of the
variant switch feeds its resolver's paths through the conversion, and the
error branches never succeed. -/
theorem dependenciesForArtifact_success_shape (ext : Externals) (b : Builder) (a : Artifact)
    (paths : List String) (h : DependenciesForArtifact ext b a = (paths, none)) :
    ∃ raw, paths = absolutePaths a.workspace raw := by
  unfold DependenciesForArtifact at h
  exact depsConvert_shape a.workspace _ paths h

/-- C7: for every artifact of any variant whose workspace is an absolute
path, whenever DependenciesForArtifact succeeds, every path in the returned
list is an absolute path and lies under that artifact's workspace. -/
theorem dependenciesForArtifact_abs_under_workspace (ext : Externals) (b : Builder)
    (a : Artifact) (paths : List String)
    (habs : isAbsolutePath a.workspace)
    (h : DependenciesForArtifact ext b a = (paths, none)) :
    ∀ p ∈ paths, isAbsolutePath p ∧ liesUnder a.workspace p := by
  obtain ⟨raw, hpaths⟩ := dependenciesForArtifact_success_shape ext b a paths h
  subst hpaths
  intro p hp
  unfold absolutePaths at hp
  simp only [List.mem_map] at hp
  obtain ⟨q, _, rfl⟩ := hp
  constructor
  · unfold isAbsolutePath at habs ⊢
    refine habs.trans ?_
    have h1 : (a.workspace ++ "/" ++ q).data = a.workspace.data ++ ("/".data ++ q.data) := by
      rw [String.data_append (a.workspace ++ "/") q, String.data_append a.workspace "/",
        List.append_assoc]
    rw [h1]
    exact List.prefix_append _ _
  · unfold liesUnder
    have h2 : (a.workspace ++ "/" ++ q).data = (a.workspace ++ "/").data ++ q.data :=
      String.data_append _ _
    rw [h2]
    exact List.prefix_append _ _

/-- Witness for C7 at a concrete input: the docker artifact at workspace
/ws/app yields /ws/app/Dockerfile, which is absolute and lies under the
workspace. -/
theorem dependenciesForArtifact_abs_under_workspace_witness :
    isAbsolutePath "/ws/app/Dockerfile" ∧ liesUnder "/ws/app" "/ws/app/Dockerfile" := by
  have h := dependenciesForArtifact_abs_under_workspace exampleExt pushBuilder aDocker
    ["/ws/app/Dockerfile", "/ws/app/main.go"] ⟨("ws/app").data, rfl⟩ rfl
  exact h "/ws/app/Dockerfile" (List.mem_cons_self _ _)

/-- Helper: buildArtifact never changes the session's push-mode flag; only
the Built-Image Registry component of the Builder is ever updated. -/
theorem buildArtifact_preserves_pushImages (ext : Externals) (b : Builder) (a : Artifact)
    (tag : String) : (buildArtifact ext b a tag).2.1.pushImages = b.pushImages := by
  unfold buildArtifact
  rcases hrb : runBuildForArtifact ext a tag with ⟨⟨v, e⟩, calls⟩
  cases e with
  | some err => rfl
  | none =>
    by_cases hp : b.pushImages = true
    · simp only [hp, if_true]
      cases hd : a.type.dockerArtifact with
      | none => exact hp
      | some cfg =>
        by_cases hid : (getImageIDForTag ext tag).1 = ""
        · simp [hid, hp]
        · simp [hid, hp]
    · simp only [if_neg hp]

/-- Helper: the result and the trace of buildArtifact depend on the Builder
only through its push-mode flag; the Built-Image Registry contents never
influence them. -/
theorem buildArtifact_congr_push (ext : Externals) (b b' : Builder)
    (hpush : b.pushImages = b'.pushImages) (a : Artifact) (tag : String) :
    (buildArtifact ext b a tag).1 = (buildArtifact ext b' a tag).1 ∧
    (buildArtifact ext b a tag).2.2 = (buildArtifact ext b' a tag).2.2 := by
  unfold buildArtifact
  rcases hrb : runBuildForArtifact ext a tag with ⟨⟨v, e⟩, calls⟩
  cases e with
  | some err => exact ⟨rfl, rfl⟩
  | none =>
    by_cases hp : b'.pushImages = true
    · have hp2 : b.pushImages = true := hpush.trans hp
      simp only [hp, hp2, if_true]
      cases hd : a.type.dockerArtifact with
      | none => exact ⟨rfl, rfl⟩
      | some cfg => exact ⟨rfl, rfl⟩
    · have hp2 : ¬b.pushImages = true := fun hc => hp (hpush.symm.trans hc)
      simp only [if_neg hp, if_neg hp2]
      refine ⟨?_, ?_⟩ <;> first | rfl | trivial

/-- Helper: one successful step of the sequential build loop, expressed with
projections of the recursive call so later rewriting stays syntactic. -/
theorem inSequence_cons_of_ok (ext : Externals) (tags : String → String) (b : Builder)
    (x : Artifact) (l : List Artifact) (v : String) (b1 : Builder) (calls : List BCall)
    (hb : buildArtifact ext b x (tags x.imageName) = ((v, none), b1, calls)) :
    inSequence ext tags b (x :: l) =
      ((⟨x.imageName, v⟩ :: (inSequence ext tags b1 l).1.1,
        (inSequence ext tags b1 l).1.2),
       (inSequence ext tags b1 l).2.1, calls ++ (inSequence ext tags b1 l).2.2) := by
  conv_lhs => unfold inSequence
  rw [hb]

/-- Helper: first-failure behaviour of the sequential build loop. When every
artifact of the prefix builds successfully and artifact a fails, the loop
returns exactly the prefix's Build Results in input order together with the
failing call's error, and its trace is exactly the prefix's calls followed by
the failing artifact's calls: the artifacts after the failure contribute
nothing. -/
theorem inSequence_firstFailure (ext : Externals) (tags : String → String)
    (pre : List Artifact) :
    ∀ (b : Builder) (a : Artifact) (post : List Artifact) (e : GoErr),
    (∀ x ∈ pre, (buildArtifact ext b x (tags x.imageName)).1.2 = none) →
    (buildArtifact ext b a (tags a.imageName)).1.2 = some e →
    (inSequence ext tags b (pre ++ a :: post)).1 =
      (pre.map (fun x => ⟨x.imageName, (buildArtifact ext b x (tags x.imageName)).1.1⟩),
       some e) ∧
    (inSequence ext tags b (pre ++ a :: post)).2.2 =
      (pre.map (fun x => (buildArtifact ext b x (tags x.imageName)).2.2)).flatten ++
        (buildArtifact ext b a (tags a.imageName)).2.2 := by
  induction pre with
  | nil =>
    intro b a post e _ ha
    rcases hb : buildArtifact ext b a (tags a.imageName) with ⟨⟨v, e2⟩, b1, calls⟩
    rw [hb] at ha
    simp only [] at ha
    subst ha
    simp only [List.nil_append, List.map_nil, List.flatten_nil]
    unfold inSequence
    rw [hb]
    exact ⟨rfl, rfl⟩
  | cons x rest ih =>
    intro b a post e hpre ha
    have hx : (buildArtifact ext b x (tags x.imageName)).1.2 = none :=
      hpre x (List.mem_cons_self x rest)
    rcases hb : buildArtifact ext b x (tags x.imageName) with ⟨⟨v, e2⟩, b1, calls⟩
    rw [hb] at hx
    simp only [] at hx
    subst hx
    have hp1 : b1.pushImages = b.pushImages := by
      have hpr := buildArtifact_preserves_pushImages ext b x (tags x.imageName)
      rw [hb] at hpr
      exact hpr
    have hcongr : ∀ y tg, (buildArtifact ext b1 y tg).1 = (buildArtifact ext b y tg).1 ∧
        (buildArtifact ext b1 y tg).2.2 = (buildArtifact ext b y tg).2.2 :=
      fun y tg => buildArtifact_congr_push ext b1 b hp1 y tg
    have ihres := ih b1 a post e
      (fun y hy => by
        rw [(hcongr y (tags y.imageName)).1]
        exact hpre y (List.mem_cons_of_mem x hy))
      (by rw [(hcongr a (tags a.imageName)).1]; exact ha)
    obtain ⟨ih1, ih2⟩ := ihres
    have hstep := inSequence_cons_of_ok ext tags b x (rest ++ a :: post) v b1 calls hb
    have hA : (⟨x.imageName, v⟩ : BuildResult) =
        ⟨x.imageName, (buildArtifact ext b x (tags x.imageName)).1.1⟩ := by
      rw [hb]
    have hL : List.map
          (fun y => (⟨y.imageName, (buildArtifact ext b1 y (tags y.imageName)).1.1⟩ :
            BuildResult)) rest =
        List.map (fun y => ⟨y.imageName, (buildArtifact ext b y (tags y.imageName)).1.1⟩)
          rest :=
      List.map_congr_left fun y _ => by rw [(hcongr y (tags y.imageName)).1]
    have hL2 : List.map (fun y => (buildArtifact ext b1 y (tags y.imageName)).2.2) rest =
        List.map (fun y => (buildArtifact ext b y (tags y.imageName)).2.2) rest :=
      List.map_congr_left fun y _ => (hcongr y (tags y.imageName)).2
    have hcalls : (buildArtifact ext b x (tags x.imageName)).2.2 = calls := by rw [hb]
    have h11 : (inSequence ext tags b1 (rest ++ a :: post)).1.1 =
        List.map (fun y => (⟨y.imageName, (buildArtifact ext b1 y (tags y.imageName)).1.1⟩ :
          BuildResult)) rest := by
      rw [ih1]
    have h12 : (inSequence ext tags b1 (rest ++ a :: post)).1.2 = some e := by
      rw [ih1]
    constructor
    · show (inSequence ext tags b (x :: (rest ++ a :: post))).1 = _
      rw [hstep]
      show (⟨x.imageName, v⟩ :: (inSequence ext tags b1 (rest ++ a :: post)).1.1,
        (inSequence ext tags b1 (rest ++ a :: post)).1.2) = _
      rw [h11, h12, hL, hA, List.map_cons]
    · show (inSequence ext tags b (x :: (rest ++ a :: post))).2.2 = _
      rw [hstep]
      show calls ++ (inSequence ext tags b1 (rest ++ a :: post)).2.2 = _
      rw [ih2, hL2, (hcongr a (tags a.imageName)).2, ← hcalls, List.map_cons,
        List.flatten_cons, List.append_assoc]

/-- C2: for every ordered artifact list consisting of a prefix whose
artifacts all build successfully, then a failing artifact (backend error e),
then any remaining artifacts, Build returns exactly the prefix's Build
Results in input order together with e wrapped with the failing artifact's
context "build artifact", and its trace is exactly the prefix's backend calls
followed by the failing artifact's calls: no backend is ever invoked for the
artifacts after the failure. -/
theorem build_firstFailure_aborts (ext : Externals) (b : Builder) (tags : String → String)
    (pre : List Artifact) (a : Artifact) (post : List Artifact) (e : GoErr)
    (hpre : ∀ x ∈ pre, (buildArtifact ext b x (tags x.imageName)).1.2 = none)
    (ha : (runBuildForArtifact ext a (tags a.imageName)).1.2 = some e) :
    (Build ext b tags (pre ++ a :: post)).1 =
      (pre.map (fun x => ⟨x.imageName, (buildArtifact ext b x (tags x.imageName)).1.1⟩),
       some (GoErr.wrap "build artifact" e)) ∧
    (Build ext b tags (pre ++ a :: post)).2.2.1 =
      (pre.map (fun x => (buildArtifact ext b x (tags x.imageName)).2.2)).flatten ++
        (runBuildForArtifact ext a (tags a.imageName)).2 := by
  have hafail : (buildArtifact ext b a (tags a.imageName)).1.2 =
      some (GoErr.wrap "build artifact" e) := by
    rw [buildArtifact_of_backend_error ext b a (tags a.imageName) e ha]
  have h := inSequence_firstFailure ext tags pre b a post
    (GoErr.wrap "build artifact" e) hpre hafail
  have hcalls : (buildArtifact ext b a (tags a.imageName)).2.2 =
      (runBuildForArtifact ext a (tags a.imageName)).2 := by
    rw [buildArtifact_of_backend_error ext b a (tags a.imageName) e ha]
  have hBuild1 : (Build ext b tags (pre ++ a :: post)).1 =
      (inSequence ext tags b (pre ++ a :: post)).1 := rfl
  have hBuild2 : (Build ext b tags (pre ++ a :: post)).2.2.1 =
      (inSequence ext tags b (pre ++ a :: post)).2.2 := rfl
  rw [hBuild1, hBuild2, h.1, h.2, hcalls]
  exact ⟨rfl, rfl⟩

/-- Witness for C2 at a concrete input: three artifacts, the second failing;
the result holds the first artifact's Build Result and the wrapped error, and
the trace holds no call for the third artifact. -/
theorem build_firstFailure_aborts_witness :
    (Build failDockerExt localBuilder tagsFn [aBazel, aDocker, aCustom]).1 =
      ([⟨"bz", "bz:v1"⟩], some (GoErr.wrap "build artifact" (GoErr.msg "boom"))) ∧
    (Build failDockerExt localBuilder tagsFn [aBazel, aDocker, aCustom]).2.2.1 =
      [BCall.bazel aBazel "bz:v1", BCall.tagImage "bz:v1" "bazel-id",
       BCall.docker aDocker "app:v1"] := by
  have h := build_firstFailure_aborts failDockerExt localBuilder tagsFn
    [aBazel] aDocker [aCustom] (GoErr.msg "boom")
    (by
      intro x hx
      rw [List.mem_singleton] at hx
      subst hx
      rfl)
    rfl
  exact ⟨h.1, h.2⟩

end Skaffold
